import Mathlib

/-!
Shallow embedding of the CareLens repository (src/app.py, src/firebase_config.py,
src/test_firebase.py): a single-page Streamlit script that uploads a chest X-ray
image, classifies it with a ResNet18 whose final layer is replaced by a two-output
linear layer, uploads the image to an S3 bucket, writes a prediction record to a
Firestore collection, and renders the five most recent records.

The embedding models the script as a pure function from inputs (which external
operations succeed, the uploaded file, the current time) and cloud state
(S3 objects, Firestore documents) to an outcome: an optional uncaught exception,
a trace of UI/side-effect events, and the final cloud state.  Library-internal
computations (PIL decoding, interpolation, the network forward pass) are modelled
as opaque deterministic functions / free constructors; the repository's own logic
(sequencing, branching, exception handling, the exact record written) is modelled
faithfully from the source.
-/

namespace CareLens

/-- A decoded RGB image, represented by the bytes it was decoded from
(`Image.open(uploaded_file).convert("RGB")` is a fixed function of the bytes). -/
abbrev Img := List Nat

/-- One step of the `transforms.Compose` pipeline at app.py lines 114-119. -/
inductive TransformStep
  | resize (h w : Nat)
  | toTensor
  | normalize (mean stdv : List ℚ)
  deriving DecidableEq

/-- Tensors as a free algebra over the preprocessing operations: each library
call is a constructor, so the term records exactly which operations were applied
and in which order.  The libraries' numeric internals are outside the repository. -/
inductive Tensor
  | img (i : Img)
  | resized (t : Tensor) (h w : Nat)
  | tensorOf (t : Tensor)
  | normalized (t : Tensor) (mean stdv : List ℚ)
  | unsqueezed (t : Tensor) (dim : Nat)
  deriving DecidableEq

/-- A naive Python datetime value (year, month, day, hour, minute, second). -/
structure PyDateTime where
  year : Nat
  month : Nat
  day : Nat
  hour : Nat
  minute : Nat
  second : Nat
  deriving DecidableEq

/-- A Firestore document: field name to string value (all fields the app writes
are strings). -/
abbrev Doc := List (String × String)

/-- The `predictions` collection, in insertion order (auto-ID documents). -/
abbrev DB := List Doc

/-- S3 object store: (bucket, key) to object bytes. -/
abbrev Storage := List ((String × String) × List Nat)

/-- The two cloud-state components the script can read or write. -/
structure CloudState where
  storage : Storage
  db : DB

/-- Uncaught Python exceptions: the only two operations of app.py that are not
inside a try/except are `Image.open(...).convert("RGB")` (line 107) and the
transform/forward-pass block (lines 114-127). -/
inductive PyErr
  | imageOpenFailed
  | inferenceFailed
  deriving DecidableEq

/-- Observable events of one script run: Streamlit UI calls and external
side effects, in program order. -/
inductive Event
  | sideSuccess (msg : String)
  | sideError (msg : String)
  | uiSuccess (msg : String)
  | uiError (msg : String)
  | uiWarning (msg : String)
  | uiInfo (msg : String)
  | showPreview
  | resize (h w : Nat)
  | toTensor
  | normalize (mean stdv : List ℚ)
  | unsqueeze (dim : Nat)
  | forward (t : Tensor)
  | resultShown (lbl : String) (dt : PyDateTime)
  | s3Upload (bucket key : String) (content : List Nat)
  | dbSet (collection : String) (doc : Doc)
  | histShown (fileName lbl : String) (dt : PyDateTime) (url : Option String)
  deriving DecidableEq

/-- The uploaded file as Streamlit delivers it (`.name`, bytes, `.type`). -/
structure UploadedFile where
  name : String
  content : List Nat
  mime : String
  deriving DecidableEq

/-- Inputs of one script run: which external operations succeed (modelling the
exceptions the try/except blocks are written for), the uploaded file, whether
the Analyze button was pressed, and the current IST time `datetime.now(IST)`. -/
structure Inputs where
  firebaseOk : Bool
  s3Ok : Bool
  modelLoadOk : Bool
  imageOpenOk : Bool
  inferOk : Bool
  uploadOk : Bool
  dbSetOk : Bool
  historyOk : Bool
  uploadedFile : Option UploadedFile
  analyzeClicked : Bool
  now : PyDateTime

/-- Result of one script run. -/
structure Outcome where
  err : Option PyErr
  trace : List Event
  state : CloudState

/-! ### Small cloud-state operations -/

/-- Firestore field lookup (`data["k"]`, as an Option). -/
def getField (d : Doc) (k : String) : Option String :=
  (d.find? fun p => p.1 = k).map Prod.snd

/-- S3 object lookup. -/
def storageGet (s : Storage) (k : String × String) : Option (List Nat) :=
  (s.find? fun p => p.1 = k).map Prod.snd

/-- S3 `upload_file`: put overwrites the object at the key. -/
def storagePut (s : Storage) (k : String × String) (v : List Nat) : Storage :=
  match s with
  | [] => [(k, v)]
  | p :: rest => if p.1 = k then (k, v) :: rest else p :: storagePut rest k v

/-! ### Timestamp formatting and parsing

app.py writes `time_now.strftime("%Y-%m-%d %H:%M:%S")` (line 162) and the
history view parses stored timestamps with
`datetime.strptime(data["timestamp"], "%Y-%m-%d %H:%M:%S")` (line 183),
falling back to `datetime.now(IST)` on any exception (line 185). -/

/-- Zero-pad to two digits (strftime `%m`, `%d`, `%H`, `%M`, `%S`). -/
def pad2 (n : Nat) : String := if n < 10 then "0" ++ toString n else toString n

/-- Zero-pad to four digits (strftime `%Y`). -/
def pad4 (n : Nat) : String :=
  if n < 10 then "000" ++ toString n
  else if n < 100 then "00" ++ toString n
  else if n < 1000 then "0" ++ toString n
  else toString n

/-- `strftime("%Y-%m-%d %H:%M:%S")`. -/
def formatTs (d : PyDateTime) : String :=
  pad4 d.year ++ "-" ++ pad2 d.month ++ "-" ++ pad2 d.day ++ " " ++
    pad2 d.hour ++ ":" ++ pad2 d.minute ++ ":" ++ pad2 d.second

/-- Split a leading run of ASCII digits from the rest. -/
def spanDigits (cs : List Char) : List Char × List Char :=
  (cs.takeWhile Char.isDigit, cs.dropWhile Char.isDigit)

/-- Numeric value of a digit string. -/
def digitsVal (cs : List Char) : Nat :=
  cs.foldl (fun a c => 10 * a + (c.toNat - 48)) 0

/-- Shape parsing of `%Y-%m-%d %H:%M:%S`: four digits for the year, one or two
digits for each other field, literal separators, whole string consumed
(CPython `_strptime` regexes; value validation is done separately, matching
the `datetime` constructor raising `ValueError`). -/
def parseTsAux (cs : List Char) : Option PyDateTime :=
  let p1 := spanDigits cs
  if p1.1.length = 4 then
    match p1.2 with
    | '-' :: r2 =>
      let p2 := spanDigits r2
      if 1 ≤ p2.1.length ∧ p2.1.length ≤ 2 then
        match p2.2 with
        | '-' :: r3 =>
          let p3 := spanDigits r3
          if 1 ≤ p3.1.length ∧ p3.1.length ≤ 2 then
            match p3.2 with
            | ' ' :: r4 =>
              let p4 := spanDigits r4
              if 1 ≤ p4.1.length ∧ p4.1.length ≤ 2 then
                match p4.2 with
                | ':' :: r5 =>
                  let p5 := spanDigits r5
                  if 1 ≤ p5.1.length ∧ p5.1.length ≤ 2 then
                    match p5.2 with
                    | ':' :: r6 =>
                      let p6 := spanDigits r6
                      if 1 ≤ p6.1.length ∧ p6.1.length ≤ 2 ∧ p6.2 = [] then
                        some ⟨digitsVal p1.1, digitsVal p2.1, digitsVal p3.1,
                              digitsVal p4.1, digitsVal p5.1, digitsVal p6.1⟩
                      else none
                    | _ => none
                  else none
                | _ => none
              else none
            | _ => none
          else none
        | _ => none
      else none
    | _ => none
  else none

/-- Gregorian leap year, as `calendar.isleap` / `datetime` use it. -/
def isLeap (y : Nat) : Bool := y % 4 == 0 && (y % 100 != 0 || y % 400 == 0)

/-- Days in a month. -/
def daysInMonth (y m : Nat) : Nat :=
  if m == 2 then (if isLeap y then 29 else 28)
  else if m == 4 || m == 6 || m == 9 || m == 11 then 30
  else 31

/-- Field validation performed by the `datetime` constructor. -/
def validDT (d : PyDateTime) : Bool :=
  if 1 ≤ d.year ∧ 1 ≤ d.month ∧ d.month ≤ 12 ∧ 1 ≤ d.day ∧
      d.day ≤ daysInMonth d.year d.month ∧ d.hour ≤ 23 ∧ d.minute ≤ 59 ∧
      d.second ≤ 59 then true else false

/-- `datetime.strptime(s, "%Y-%m-%d %H:%M:%S")` as an Option: `none` models the
exception swallowed by the bare `except:` at app.py line 184. -/
def parseTs (s : String) : Option PyDateTime :=
  match parseTsAux s.data with
  | some d => if validDT d then some d else none
  | none => none

/-! ### Constants and pure helpers of the analyze flow -/

/-- `BUCKET_NAME = "carelens"` (app.py line 64). -/
def bucketName : String := "carelens"

/-- Normalization means `[0.485, 0.456, 0.406]` (app.py line 117). -/
def normMean : List ℚ := [485/1000, 456/1000, 406/1000]

/-- Normalization standard deviations `[0.229, 0.224, 0.225]` (app.py line 118). -/
def normStd : List ℚ := [229/1000, 224/1000, 225/1000]

/-- The `transforms.Compose` list at app.py lines 114-119. -/
def transformSteps : List TransformStep :=
  [.resize 224 224, .toTensor, .normalize normMean normStd]

/-- Apply one transform step to a tensor. -/
def applyStep (t : Tensor) : TransformStep → Tensor
  | .resize h w => .resized t h w
  | .toTensor => .tensorOf t
  | .normalize m s => .normalized t m s

/-- The event a transform step emits. -/
def stepEvent : TransformStep → Event
  | .resize h w => .resize h w
  | .toTensor => .toTensor
  | .normalize m s => .normalize m s

/-- Apply a `Compose` pipeline left to right, recording one event per step. -/
def appTransforms (t : Tensor) : List TransformStep → Tensor × List Event
  | [] => (t, [])
  | s :: rest =>
    let r := appTransforms (applyStep t s) rest
    (r.1, stepEvent s :: r.2)

/-- `transform(image).unsqueeze(0)` (app.py line 121). -/
def imgTensor (i : Img) : Tensor :=
  .unsqueezed (appTransforms (.img i) transformSteps).1 0

/-- Index of the first maximal element: `_, pred = torch.max(output, 1)`
over the length-2 logit row (app.py line 125). -/
def argmaxAux : List ℚ → ℚ → Nat → Nat → Nat
  | [], _, _, bi => bi
  | x :: xs, bv, i, bi =>
    if bv < x then argmaxAux xs x (i + 1) i else argmaxAux xs bv (i + 1) bi

/-- Argmax index of a logit vector (0 on an empty vector). -/
def argmaxIdx : List ℚ → Nat
  | [] => 0
  | x :: xs => argmaxAux xs x 1 0

/-- `label = "Normal" if pred.item() == 0 else "Pneumonia"` (app.py line 127). -/
def labelOf (pred : Nat) : String := if pred = 0 then "Normal" else "Pneumonia"

/-- The label the analyze step computes for a given model function and image. -/
def analyzeLabel (modelFn : Tensor → List ℚ) (i : Img) : String :=
  labelOf (argmaxIdx (modelFn (imgTensor i)))

/-- `s3_key = f"user_uploads/{uploaded_file.name}"` (app.py line 147). -/
def s3Key (name : String) : String := "user_uploads/" ++ name

/-- `image_url = f"https://{BUCKET_NAME}.s3.amazonaws.com/{s3_key}"` (line 153). -/
def imageUrl (name : String) : String :=
  "https://" ++ bucketName ++ ".s3.amazonaws.com/" ++ s3Key name

/-- The Firestore document written at app.py lines 159-164, fields in source
order. -/
def mkRecord (name lbl ts url : String) : Doc :=
  [("file_name", name), ("label", lbl), ("timestamp", ts), ("image_url", url)]

/-! ### Script sections -/

/-- Firebase setup try/except (app.py lines 42-52): yields whether `db` is a
client (vs `None`) and the sidebar message. -/
def firebaseSetup (inp : Inputs) : Bool × List Event :=
  if inp.firebaseOk then (true, [.sideSuccess "Firebase Connected"])
  else (false, [.sideError "Firebase connection failed."])

/-- S3 setup try/except (app.py lines 57-69): whether `s3` is a client
(vs `None`) and the sidebar message. -/
def s3Setup (inp : Inputs) : Bool × List Event :=
  if inp.s3Ok then (true, [.sideSuccess "Connected to S3 bucket"])
  else (false, [.sideError "S3 connection failed."])

/-- The model as loaded by `load_model` (app.py lines 74-96): a ResNet18
(`models.resnet18(pretrained=False)`, whose `fc.in_features` is 512) with
`model.fc` replaced by `torch.nn.Linear(num_features, 2)`, carrying the raw
bytes of the state-dict file downloaded from S3. -/
structure LoadedModel where
  base : String
  fcIn : Nat
  fcOut : Nat
  weights : List Nat
  deriving DecidableEq

/-- `load_model()`:  every exception inside it is caught and turned into a
`st.error` plus `None`; downloading requires the object
`s3://carelens/model11.pth` to exist, and `inp.modelLoadOk` models
`torch.load` / `load_state_dict` succeeding. -/
def loadModel (inp : Inputs) (s3Avail : Bool) (storage : Storage) :
    Option LoadedModel × List Event :=
  if s3Avail then
    match storageGet storage (bucketName, "model11.pth") with
    | none => (none, [.uiError "Failed to load model"])
    | some w =>
      if inp.modelLoadOk then
        (some { base := "resnet18", fcIn := 512, fcOut := 2, weights := w }, [])
      else (none, [.uiError "Failed to load model"])
  else (none, [.uiError "S3 not available to load model."])

/-- The upload-and-save try/except (app.py lines 146-169), entered only when
`s3 and db`.  An upload failure aborts before any write; a Firestore failure
leaves the uploaded object in place (no rollback). -/
def persistSection (inp : Inputs) (f : UploadedFile) (lbl : String)
    (st : CloudState) : CloudState × List Event :=
  if inp.uploadOk then
    let st1 : CloudState :=
      { st with storage := storagePut st.storage (bucketName, s3Key f.name) f.content }
    let ev1 : List Event :=
      [.s3Upload bucketName (s3Key f.name) f.content,
       .uiSuccess "Image securely saved to S3."]
    if inp.dbSetOk then
      let doc := mkRecord f.name lbl (formatTs inp.now) (imageUrl f.name)
      ({ st1 with db := st1.db ++ [doc] },
       ev1 ++ [.dbSet "predictions" doc,
               .uiSuccess "Prediction record added to Firestore."])
    else (st1, ev1 ++ [.uiError "Upload or database save failed"])
  else (st, [.uiError "Upload or database save failed"])

/-- The Firestore descending order on the stored `timestamp` string
(UTF-8 byte order on strings, i.e. lexicographic). -/
def docGe (a b : Doc) : Prop :=
  (getField b "timestamp").getD "" ≤ (getField a "timestamp").getD ""

instance : DecidableRel docGe := fun a b =>
  inferInstanceAs (Decidable
    ((getField b "timestamp").getD "" ≤ (getField a "timestamp").getD ""))

instance : IsTotal Doc docGe :=
  ⟨fun _ _ => by unfold docGe; exact le_total _ _⟩

instance : IsTrans Doc docGe :=
  ⟨fun _ _ _ h1 h2 => by unfold docGe at h1 h2 ⊢; exact le_trans h2 h1⟩

/-- `db.collection("predictions").order_by("timestamp", DESCENDING).limit(5)`
(app.py line 178): Firestore excludes documents missing the ordered-by field,
sorts the rest by it descending, and returns at most 5. -/
def queryDocs (db : DB) : List Doc :=
  (List.insertionSort docGe
    (db.filter fun d => (getField d "timestamp").isSome)).take 5

/-- One rendered history row. -/
structure HistItem where
  fileName : String
  lbl : String
  dt : PyDateTime
  url : Option String
  deriving DecidableEq

/-- The history loop body (app.py lines 180-189): each row shows
`file_name`, `label` and a datetime that is the parsed stored timestamp or, if
parsing raised, `datetime.now(IST)`; the image is shown only when `image_url`
is present.  A missing `file_name`/`label` raises `KeyError`, aborting the loop
(flag `false`); rows rendered before the abort are kept. -/
def renderHist (now : PyDateTime) : List Doc → List HistItem × Bool
  | [] => ([], true)
  | d :: rest =>
    match getField d "file_name", getField d "label", getField d "timestamp" with
    | some fn, some lb, some ts =>
      let r := renderHist now rest
      ({ fileName := fn, lbl := lb, dt := (parseTs ts).getD now,
         url := getField d "image_url" } :: r.1, r.2)
    | _, _, _ => ([], false)

/-- The recent-predictions section (app.py lines 176-193). -/
def historySection (inp : Inputs) (dbAvail : Bool) (db : DB) : List Event :=
  if dbAvail then
    if inp.historyOk then
      let r := renderHist inp.now (queryDocs db)
      (r.1.map fun it => Event.histShown it.fileName it.lbl it.dt it.url) ++
        (if r.2 then [] else [.uiWarning "Could not load prediction history"])
    else [.uiWarning "Could not load prediction history"]
  else [.uiInfo "Firestore not connected - history unavailable."]

/-! ### The whole script -/

/-- The analyze-button branch (app.py lines 110-169), given the already-loaded
model, availability flags and the opened image; followed by the history
section when no uncaught exception occurred. -/
def analyzeBranch (modelFn : Tensor → List ℚ) (inp : Inputs)
    (lm : Option LoadedModel) (s3Avail dbAvail : Bool) (f : UploadedFile)
    (st0 : CloudState) : Outcome :=
  match lm with
  | none =>
    { err := none,
      trace := [.uiError "Model not loaded."] ++ historySection inp dbAvail st0.db,
      state := st0 }
  | some _ =>
    let pr := appTransforms (.img f.content) transformSteps
    let t : Tensor := .unsqueezed pr.1 0
    if inp.inferOk then
      let pred := argmaxIdx (modelFn t)
      let lbl := labelOf pred
      let resTrace := pr.2 ++ [.unsqueeze 0, .forward t, .resultShown lbl inp.now]
      if s3Avail && dbAvail then
        let ps := persistSection inp f lbl st0
        { err := none,
          trace := resTrace ++ ps.2 ++ historySection inp dbAvail ps.1.db,
          state := ps.1 }
      else
        { err := none,
          trace := resTrace ++ historySection inp dbAvail st0.db,
          state := st0 }
    else
      { err := some .inferenceFailed, trace := pr.2 ++ [.unsqueeze 0], state := st0 }

/-- One full top-to-bottom run of app.py. -/
def runScript (modelFn : Tensor → List ℚ) (inp : Inputs) (st0 : CloudState) :
    Outcome :=
  let fb := firebaseSetup inp
  let s3r := s3Setup inp
  let lm := loadModel inp s3r.1 st0.storage
  let setupTrace := fb.2 ++ s3r.2 ++ lm.2
  match inp.uploadedFile with
  | none =>
    { err := none, trace := setupTrace ++ historySection inp fb.1 st0.db,
      state := st0 }
  | some f =>
    if inp.imageOpenOk then
      if inp.analyzeClicked then
        let o := analyzeBranch modelFn inp lm.1 s3r.1 fb.1 f st0
        { o with trace := setupTrace ++ [.showPreview] ++ o.trace }
      else
        { err := none,
          trace := setupTrace ++ [.showPreview] ++ historySection inp fb.1 st0.db,
          state := st0 }
    else
      { err := some .imageOpenFailed, trace := setupTrace, state := st0 }

/-! ### Observations over traces -/

/-- Is the event a Firestore document write? -/
def isDbSet : Event → Bool
  | .dbSet _ _ => true
  | _ => false

/-- Is the event an S3 object upload? -/
def isS3Upload : Event → Bool
  | .s3Upload _ _ _ => true
  | _ => false

/-- The documents written to Firestore during a run, in order. -/
def dbSetDocs (tr : List Event) : List Doc :=
  tr.filterMap fun e => match e with | .dbSet _ d => some d | _ => none

/-- The labels rendered in the result panel during a run, in order. -/
def shownLabels (tr : List Event) : List String :=
  tr.filterMap fun e => match e with | .resultShown l _ => some l | _ => none

/-- Is the event a preprocessing / inference step? -/
def isPipelineEvent : Event → Bool
  | .resize _ _ => true
  | .toTensor => true
  | .normalize _ _ => true
  | .unsqueeze _ => true
  | .forward _ => true
  | _ => false

/-- The preprocessing / inference steps of a run, in order. -/
def pipelineEvents (tr : List Event) : List Event := tr.filter isPipelineEvent

/-- Is the event neither a Firestore write nor an S3 upload? -/
def cleanEv (e : Event) : Bool := !isDbSet e && !isS3Upload e

/-- `true` iff the first Firestore write of the trace, if any, is preceded by
an S3 upload. -/
def uploadBeforeSet : List Event → Bool
  | [] => true
  | e :: rest =>
    if isDbSet e then false else if isS3Upload e then true else uploadBeforeSet rest

/-! ### Concrete sample inputs (used by witnesses) -/

/-- A sample model function: logits favouring index 0. -/
def sampleModelFn : Tensor → List ℚ := fun _ => [1, 0]

/-- A sample uploaded file. -/
def sampleFile : UploadedFile := ⟨"x.png", [7, 8], "image/png"⟩

/-- A sample cloud state holding the model-weights object. -/
def sampleState : CloudState :=
  ⟨[((bucketName, "model11.pth"), [9, 9])], []⟩

/-- Sample inputs for a fully successful analyze run. -/
def sampleInputs : Inputs :=
  ⟨true, true, true, true, true, true, true, true, some sampleFile, true,
   ⟨2025, 1, 2, 3, 4, 5⟩⟩

/-- A second sample file with the same name but different bytes. -/
def sampleFile2 : UploadedFile := ⟨"x.png", [1, 2, 3], "image/png"⟩

/-- A sample `predictions` collection. -/
def sampleDb : DB :=
  [[("file_name", "a"), ("label", "Normal"),
    ("timestamp", "2025-01-01 00:00:00"), ("image_url", "u")],
   [("file_name", "b"), ("label", "Pneumonia"), ("timestamp", "bogus")]]

/-! ### Helper lemmas -/

theorem storageGet_put_same (s : Storage) (k : String × String) (v : List Nat) :
    storageGet (storagePut s k v) k = some v := by
  induction s with
  | nil => simp [storagePut, storageGet]
  | cons p rest ih =>
    by_cases h : p.1 = k
    · simp [storagePut, storageGet, h]
    · simp only [storagePut, if_neg h]
      simp only [storageGet, List.find?] at ih ⊢
      simp [h, ih]

theorem storageGet_put_other (s : Storage) (k k2 : String × String)
    (v : List Nat) (h : k ≠ k2) :
    storageGet (storagePut s k v) k2 = storageGet s k2 := by
  induction s with
  | nil => simp [storagePut, storageGet, List.find?, h]
  | cons p rest ih =>
    by_cases hp : p.1 = k
    · simp only [storagePut, if_pos hp]
      simp only [storageGet, List.find?]
      simp [h, hp]
    · simp only [storagePut, if_neg hp]
      simp only [storageGet, List.find?] at ih ⊢
      by_cases hp2 : p.1 = k2
      · simp [hp2]
      · simp [hp2, ih]

theorem s3Key_ne_weightsKey (n : String) : s3Key n ≠ "model11.pth" := by
  intro h
  have h1 : (s3Key n).length = 13 + n.length := by
    have h0 : ("user_uploads/" : String).length = 13 := rfl
    simp [s3Key, String.length_append, h0]
  rw [h] at h1
  have h2 : ("model11.pth" : String).length = 11 := rfl
  omega

/-- Fully successful analyze run: the exact outcome. -/
theorem runScript_success (modelFn : Tensor → List ℚ) (inp : Inputs)
    (st0 : CloudState) (f : UploadedFile) (w : List Nat)
    (hfb : inp.firebaseOk = true) (hs3 : inp.s3Ok = true)
    (hw : storageGet st0.storage (bucketName, "model11.pth") = some w)
    (hml : inp.modelLoadOk = true) (hf : inp.uploadedFile = some f)
    (hio : inp.imageOpenOk = true) (hcl : inp.analyzeClicked = true)
    (hinf : inp.inferOk = true) (hup : inp.uploadOk = true)
    (hdb : inp.dbSetOk = true) :
    runScript modelFn inp st0 =
      { err := none,
        trace :=
          [.sideSuccess "Firebase Connected", .sideSuccess "Connected to S3 bucket",
           .showPreview, .resize 224 224, .toTensor, .normalize normMean normStd,
           .unsqueeze 0, .forward (imgTensor f.content),
           .resultShown (analyzeLabel modelFn f.content) inp.now,
           .s3Upload bucketName (s3Key f.name) f.content,
           .uiSuccess "Image securely saved to S3.",
           .dbSet "predictions"
             (mkRecord f.name (analyzeLabel modelFn f.content) (formatTs inp.now)
               (imageUrl f.name)),
           .uiSuccess "Prediction record added to Firestore."] ++
          historySection inp true
            (st0.db ++ [mkRecord f.name (analyzeLabel modelFn f.content)
              (formatTs inp.now) (imageUrl f.name)]),
        state :=
          { storage := storagePut st0.storage (bucketName, s3Key f.name) f.content,
            db := st0.db ++ [mkRecord f.name (analyzeLabel modelFn f.content)
              (formatTs inp.now) (imageUrl f.name)] } } := by
  simp [runScript, firebaseSetup, s3Setup, loadModel, analyzeBranch, persistSection,
        appTransforms, transformSteps, applyStep, stepEvent, imgTensor, analyzeLabel,
        hfb, hs3, hw, hml, hf, hio, hcl, hinf, hup, hdb]

theorem dbSetDocs_append (a b : List Event) :
    dbSetDocs (a ++ b) = dbSetDocs a ++ dbSetDocs b := by
  unfold dbSetDocs
  rw [List.filterMap_append]

theorem shownLabels_append (a b : List Event) :
    shownLabels (a ++ b) = shownLabels a ++ shownLabels b := by
  unfold shownLabels
  rw [List.filterMap_append]

theorem pipelineEvents_append (a b : List Event) :
    pipelineEvents (a ++ b) = pipelineEvents a ++ pipelineEvents b := by
  unfold pipelineEvents
  rw [List.filter_append]

theorem dbSetDocs_nil : dbSetDocs [] = [] := rfl

theorem dbSetDocs_cons (e : Event) (tr : List Event) :
    dbSetDocs (e :: tr) =
      (match e with | Event.dbSet _ d => [d] | _ => []) ++ dbSetDocs tr := by
  cases e <;> simp [dbSetDocs, List.filterMap_cons]

theorem shownLabels_nil : shownLabels [] = [] := rfl

theorem shownLabels_cons (e : Event) (tr : List Event) :
    shownLabels (e :: tr) =
      (match e with | Event.resultShown l _ => [l] | _ => []) ++ shownLabels tr := by
  cases e <;> simp [shownLabels, List.filterMap_cons]

theorem pipelineEvents_nil : pipelineEvents [] = [] := rfl

theorem pipelineEvents_cons (e : Event) (tr : List Event) :
    pipelineEvents (e :: tr) =
      (if isPipelineEvent e then [e] else []) ++ pipelineEvents tr := by
  cases e <;> simp [pipelineEvents, List.filter_cons, isPipelineEvent]

theorem dbSetDocs_historySection (inp : Inputs) (b : Bool) (db : DB) :
    dbSetDocs (historySection inp b db) = [] := by
  unfold historySection
  cases b with
  | false => rfl
  | true =>
    cases hh : inp.historyOk with
    | false => simp [hh, dbSetDocs]
    | true =>
      simp only [hh, if_true]
      rw [dbSetDocs_append]
      have h1 : dbSetDocs ((renderHist inp.now (queryDocs db)).1.map
          fun it => Event.histShown it.fileName it.lbl it.dt it.url) = [] := by
        unfold dbSetDocs
        rw [List.filterMap_map]
        exact List.filterMap_eq_nil.mpr fun a _ => rfl
      rw [h1]
      rcases (renderHist inp.now (queryDocs db)).2 <;> rfl

theorem shownLabels_historySection (inp : Inputs) (b : Bool) (db : DB) :
    shownLabels (historySection inp b db) = [] := by
  unfold historySection
  cases b with
  | false => rfl
  | true =>
    cases hh : inp.historyOk with
    | false => simp [hh, shownLabels]
    | true =>
      simp only [hh, if_true]
      rw [shownLabels_append]
      have h1 : shownLabels ((renderHist inp.now (queryDocs db)).1.map
          fun it => Event.histShown it.fileName it.lbl it.dt it.url) = [] := by
        unfold shownLabels
        rw [List.filterMap_map]
        exact List.filterMap_eq_nil.mpr fun a _ => rfl
      rw [h1]
      rcases (renderHist inp.now (queryDocs db)).2 <;> rfl

theorem pipelineEvents_historySection (inp : Inputs) (b : Bool) (db : DB) :
    pipelineEvents (historySection inp b db) = [] := by
  unfold historySection
  cases b with
  | false => rfl
  | true =>
    cases hh : inp.historyOk with
    | false => simp [hh, pipelineEvents, isPipelineEvent]
    | true =>
      simp only [hh, if_true]
      rw [pipelineEvents_append]
      have h1 : pipelineEvents ((renderHist inp.now (queryDocs db)).1.map
          fun it => Event.histShown it.fileName it.lbl it.dt it.url) = [] := by
        unfold pipelineEvents
        rw [List.filter_map]
        have h2 : List.filter
            ((isPipelineEvent) ∘ fun it => Event.histShown it.fileName it.lbl it.dt it.url)
            (renderHist inp.now (queryDocs db)).1 = [] :=
          List.filter_eq_nil.mpr fun a _ => by simp [Function.comp, isPipelineEvent]
        rw [h2, List.map_nil]
      rw [h1]
      rcases (renderHist inp.now (queryDocs db)).2 <;> rfl

theorem historySection_all_clean (inp : Inputs) (b : Bool) (db : DB) :
    (historySection inp b db).all cleanEv = true := by
  unfold historySection
  cases b with
  | false => rfl
  | true =>
    cases hh : inp.historyOk with
    | false => simp [hh, cleanEv, isDbSet, isS3Upload]
    | true =>
      simp only [hh, if_true]
      rw [List.all_append]
      apply (Bool.and_eq_true _ _).mpr
      constructor
      · exact List.all_eq_true.mpr fun a ha => by
          rcases List.mem_map.mp ha with ⟨it, _, rfl⟩; rfl
      · rcases (renderHist inp.now (queryDocs db)).2 <;> rfl

theorem firebaseSetup_all_clean (inp : Inputs) :
    (firebaseSetup inp).2.all cleanEv = true := by
  unfold firebaseSetup
  split <;> simp [cleanEv, isDbSet, isS3Upload]

theorem s3Setup_all_clean (inp : Inputs) :
    (s3Setup inp).2.all cleanEv = true := by
  unfold s3Setup
  split <;> simp [cleanEv, isDbSet, isS3Upload]

theorem loadModel_all_clean (inp : Inputs) (b : Bool) (s : Storage) :
    (loadModel inp b s).2.all cleanEv = true := by
  unfold loadModel
  split
  · split
    · simp [cleanEv, isDbSet, isS3Upload]
    · split <;> simp [cleanEv, isDbSet, isS3Upload]
  · simp [cleanEv, isDbSet, isS3Upload]

theorem dbSetDocs_of_clean (a : List Event) (h : a.all cleanEv = true) :
    dbSetDocs a = [] := by
  rw [dbSetDocs, List.filterMap_eq_nil]
  intro e he
  have := List.all_eq_true.mp h e he
  simp [cleanEv, Bool.and_eq_true, Bool.not_eq_true'] at this
  cases e <;> simp_all [isDbSet]

theorem dbSetDocs_firebaseSetup (inp : Inputs) :
    dbSetDocs (firebaseSetup inp).2 = [] :=
  dbSetDocs_of_clean _ (firebaseSetup_all_clean inp)

theorem dbSetDocs_s3Setup (inp : Inputs) :
    dbSetDocs (s3Setup inp).2 = [] :=
  dbSetDocs_of_clean _ (s3Setup_all_clean inp)

theorem dbSetDocs_loadModel (inp : Inputs) (b : Bool) (s : Storage) :
    dbSetDocs (loadModel inp b s).2 = [] :=
  dbSetDocs_of_clean _ (loadModel_all_clean inp b s)

/-- Shape of the analyze-button branch: either no Firestore write happens and
the collection is unchanged, or exactly the one record of this analysis is
written and appended. -/
theorem analyzeBranch_shape (modelFn : Tensor → List ℚ) (inp : Inputs)
    (lm : Option LoadedModel) (s3A dbA : Bool) (f : UploadedFile)
    (st0 : CloudState) :
    (dbSetDocs (analyzeBranch modelFn inp lm s3A dbA f st0).trace = [] ∧
      (analyzeBranch modelFn inp lm s3A dbA f st0).state.db = st0.db) ∨
    (dbSetDocs (analyzeBranch modelFn inp lm s3A dbA f st0).trace =
        [mkRecord f.name (labelOf (argmaxIdx (modelFn (imgTensor f.content))))
          (formatTs inp.now) (imageUrl f.name)] ∧
      (analyzeBranch modelFn inp lm s3A dbA f st0).state.db =
        st0.db ++ [mkRecord f.name (labelOf (argmaxIdx (modelFn (imgTensor f.content))))
          (formatTs inp.now) (imageUrl f.name)]) := by
  cases lm with
  | none =>
    left
    constructor
    · simp [analyzeBranch, dbSetDocs_append, dbSetDocs_cons, dbSetDocs_nil, dbSetDocs_historySection]
    · simp [analyzeBranch]
  | some m =>
    cases hinf : inp.inferOk with
    | false =>
      left
      constructor
      · simp [analyzeBranch, hinf, dbSetDocs_append, dbSetDocs, appTransforms,
              transformSteps, applyStep, stepEvent]
      · simp [analyzeBranch, hinf]
    | true =>
      cases hsd : (s3A && dbA) with
      | false =>
        left
        constructor
        · simp [analyzeBranch, hinf, hsd, dbSetDocs_append, dbSetDocs_cons, dbSetDocs_nil, dbSetDocs_historySection,
                appTransforms, transformSteps, applyStep, stepEvent]
        · simp [analyzeBranch, hinf, hsd]
      | true =>
        cases hup : inp.uploadOk with
        | false =>
          left
          constructor
          · simp [analyzeBranch, persistSection, hinf, hsd, hup, dbSetDocs_append,
                  dbSetDocs_cons, dbSetDocs_nil, dbSetDocs_historySection,
                  appTransforms, transformSteps, applyStep, stepEvent]
          · simp [analyzeBranch, persistSection, hinf, hsd, hup]
        | true =>
          cases hdb : inp.dbSetOk with
          | false =>
            left
            constructor
            · simp [analyzeBranch, persistSection, hinf, hsd, hup, hdb,
                    dbSetDocs_append, dbSetDocs_cons, dbSetDocs_nil, dbSetDocs_historySection,
                    appTransforms, transformSteps, applyStep, stepEvent]
            · simp [analyzeBranch, persistSection, hinf, hsd, hup, hdb]
          | true =>
            right
            constructor
            · simp [analyzeBranch, persistSection, hinf, hsd, hup, hdb,
                    dbSetDocs_append, dbSetDocs_cons, dbSetDocs_nil, dbSetDocs_historySection,
                    appTransforms, transformSteps, applyStep, stepEvent, imgTensor]
            · simp [analyzeBranch, persistSection, hinf, hsd, hup, hdb, imgTensor]

/-- Shape of a full run: either no record is written and the collection is
unchanged, or exactly one record of the analyzed file is appended. -/
theorem runScript_shape (modelFn : Tensor → List ℚ) (inp : Inputs)
    (st0 : CloudState) :
    (dbSetDocs (runScript modelFn inp st0).trace = [] ∧
      (runScript modelFn inp st0).state.db = st0.db) ∨
    (∃ f pred, inp.uploadedFile = some f ∧
      dbSetDocs (runScript modelFn inp st0).trace =
        [mkRecord f.name (labelOf pred) (formatTs inp.now) (imageUrl f.name)] ∧
      (runScript modelFn inp st0).state.db =
        st0.db ++ [mkRecord f.name (labelOf pred) (formatTs inp.now)
          (imageUrl f.name)]) := by
  rcases hfile : inp.uploadedFile with _ | f
  · left
    constructor
    · simp [runScript, hfile, dbSetDocs_append, dbSetDocs_cons, dbSetDocs_nil, dbSetDocs_firebaseSetup,
            dbSetDocs_s3Setup, dbSetDocs_loadModel, dbSetDocs_historySection]
    · simp [runScript, hfile]
  · cases hio : inp.imageOpenOk with
    | false =>
      left
      constructor
      · simp [runScript, hfile, hio, dbSetDocs_append, dbSetDocs_cons, dbSetDocs_nil, dbSetDocs_firebaseSetup,
              dbSetDocs_s3Setup, dbSetDocs_loadModel]
      · simp [runScript, hfile, hio]
    | true =>
      cases hcl : inp.analyzeClicked with
      | false =>
        left
        constructor
        · simp [runScript, hfile, hio, hcl, dbSetDocs_append, dbSetDocs_cons, dbSetDocs_nil, dbSetDocs_firebaseSetup,
                dbSetDocs_s3Setup, dbSetDocs_loadModel, dbSetDocs_historySection]
        · simp [runScript, hfile, hio, hcl]
      | true =>
        have h := analyzeBranch_shape modelFn inp
          (loadModel inp (s3Setup inp).1 st0.storage).1 (s3Setup inp).1
          (firebaseSetup inp).1 f st0
        rcases h with ⟨h1, h2⟩ | ⟨h1, h2⟩
        · left
          constructor
          · simp [runScript, hfile, hio, hcl, dbSetDocs_append, dbSetDocs_cons, dbSetDocs_nil, dbSetDocs_firebaseSetup,
                  dbSetDocs_s3Setup, dbSetDocs_loadModel, h1]
          · simp [runScript, hfile, hio, hcl, h2]
        · right
          refine ⟨f, argmaxIdx (modelFn (imgTensor f.content)), rfl, ?_, ?_⟩
          · simp [runScript, hfile, hio, hcl, dbSetDocs_append, dbSetDocs_cons, dbSetDocs_nil, dbSetDocs_firebaseSetup,
                  dbSetDocs_s3Setup, dbSetDocs_loadModel, h1]
          · simp [runScript, hfile, hio, hcl, h2]

/-! ### Upload-precedes-write machinery -/

theorem uploadBeforeSet_append_clean (A B : List Event)
    (h : A.all cleanEv = true) :
    uploadBeforeSet (A ++ B) = uploadBeforeSet B := by
  induction A with
  | nil => rfl
  | cons e rest ih =>
    have he := List.all_eq_true.mp h e (List.mem_cons_self e rest)
    have hrest : rest.all cleanEv = true :=
      List.all_eq_true.mpr fun a ha =>
        List.all_eq_true.mp h a (List.mem_cons_of_mem e ha)
    simp only [cleanEv, Bool.and_eq_true, Bool.not_eq_true'] at he
    simp [uploadBeforeSet, he.1, he.2, ih hrest]

theorem uploadBeforeSet_of_clean (A : List Event) (h : A.all cleanEv = true) :
    uploadBeforeSet A = true := by
  have h2 := uploadBeforeSet_append_clean A [] h
  simpa using h2

theorem uploadBeforeSet_clean_prefix (A B : List Event)
    (hA : A.all cleanEv = true) (hB : uploadBeforeSet B = true) :
    uploadBeforeSet (A ++ B) = true := by
  rw [uploadBeforeSet_append_clean A B hA]
  exact hB

/-- In the analyze branch, any Firestore write is preceded by the S3 upload. -/
theorem uploadBeforeSet_analyzeBranch (modelFn : Tensor → List ℚ) (inp : Inputs)
    (lm : Option LoadedModel) (s3A dbA : Bool) (f : UploadedFile)
    (st0 : CloudState) :
    uploadBeforeSet (analyzeBranch modelFn inp lm s3A dbA f st0).trace = true := by
  cases lm with
  | none =>
    apply uploadBeforeSet_of_clean
    simp [analyzeBranch, List.all_append, List.all_cons, historySection_all_clean,
          cleanEv, isDbSet, isS3Upload]
  | some m =>
    cases hinf : inp.inferOk with
    | false =>
      apply uploadBeforeSet_of_clean
      simp [analyzeBranch, hinf, appTransforms, transformSteps, applyStep, stepEvent,
            List.all_append, List.all_cons, cleanEv, isDbSet, isS3Upload]
    | true =>
      cases hsd : (s3A && dbA) with
      | false =>
        apply uploadBeforeSet_of_clean
        simp [analyzeBranch, hinf, hsd, appTransforms, transformSteps, applyStep,
              stepEvent, List.all_append, List.all_cons, historySection_all_clean,
              cleanEv, isDbSet, isS3Upload]
      | true =>
        cases hup : inp.uploadOk with
        | false =>
          apply uploadBeforeSet_of_clean
          simp [analyzeBranch, persistSection, hinf, hsd, hup, appTransforms,
                transformSteps, applyStep, stepEvent, List.all_append, List.all_cons,
                historySection_all_clean, cleanEv, isDbSet, isS3Upload]
        | true =>
          cases hdb : inp.dbSetOk with
          | false =>
            simp [analyzeBranch, persistSection, hinf, hsd, hup, hdb, appTransforms,
                  transformSteps, applyStep, stepEvent, uploadBeforeSet, isDbSet,
                  isS3Upload]
          | true =>
            simp [analyzeBranch, persistSection, hinf, hsd, hup, hdb, appTransforms,
                  transformSteps, applyStep, stepEvent, uploadBeforeSet, isDbSet,
                  isS3Upload]

/-- In every run of the script, any Firestore write is preceded by the S3
upload of the same analysis. -/
theorem uploadBeforeSet_runScript (modelFn : Tensor → List ℚ) (inp : Inputs)
    (st0 : CloudState) :
    uploadBeforeSet (runScript modelFn inp st0).trace = true := by
  rcases hfile : inp.uploadedFile with _ | f
  · apply uploadBeforeSet_of_clean
    simp [runScript, hfile, List.all_append, firebaseSetup_all_clean,
          s3Setup_all_clean, loadModel_all_clean, historySection_all_clean]
  · cases hio : inp.imageOpenOk with
    | false =>
      apply uploadBeforeSet_of_clean
      simp [runScript, hfile, hio, List.all_append, firebaseSetup_all_clean,
            s3Setup_all_clean, loadModel_all_clean]
    | true =>
      cases hcl : inp.analyzeClicked with
      | false =>
        apply uploadBeforeSet_of_clean
        simp [runScript, hfile, hio, hcl, List.all_append, List.all_cons,
              firebaseSetup_all_clean, s3Setup_all_clean, loadModel_all_clean,
              historySection_all_clean, cleanEv, isDbSet, isS3Upload]
      | true =>
        have hbody := uploadBeforeSet_analyzeBranch modelFn inp
          (loadModel inp (s3Setup inp).1 st0.storage).1 (s3Setup inp).1
          (firebaseSetup inp).1 f st0
        simp only [runScript, hfile, hio, hcl, if_true]
        refine uploadBeforeSet_clean_prefix _ _ ?_ hbody
        simp [List.all_append, List.all_cons, firebaseSetup_all_clean,
              s3Setup_all_clean, loadModel_all_clean, cleanEv, isDbSet, isS3Upload]

/-! ### History-view lemmas -/

theorem queryDocs_length_le (db : DB) : (queryDocs db).length ≤ 5 := by
  unfold queryDocs
  rw [List.length_take]
  exact min_le_left _ _

theorem queryDocs_sorted (db : DB) : List.Sorted docGe (queryDocs db) :=
  List.Pairwise.sublist (List.take_sublist 5 _)
    (List.sorted_insertionSort docGe _)

theorem queryDocs_mem (db : DB) (d : Doc) (hd : d ∈ queryDocs db) : d ∈ db := by
  unfold queryDocs at hd
  have h1 := (List.take_sublist 5 _).subset hd
  have h2 := (List.perm_insertionSort docGe _).subset h1
  exact (List.mem_filter.mp h2).1

theorem queryDocs_ts_isSome (db : DB) (d : Doc) (hd : d ∈ queryDocs db) :
    (getField d "timestamp").isSome = true := by
  unfold queryDocs at hd
  have h1 := (List.take_sublist 5 _).subset hd
  have h2 := (List.perm_insertionSort docGe _).subset h1
  exact (List.mem_filter.mp h2).2

theorem renderHist_eq_map (now : PyDateTime) (docs : List Doc)
    (h : ∀ d ∈ docs, (getField d "file_name").isSome = true ∧
      (getField d "label").isSome = true ∧
      (getField d "timestamp").isSome = true) :
    renderHist now docs =
      (docs.map fun d =>
        { fileName := (getField d "file_name").getD "",
          lbl := (getField d "label").getD "",
          dt := (parseTs ((getField d "timestamp").getD "")).getD now,
          url := getField d "image_url" }, true) := by
  induction docs with
  | nil => rfl
  | cons d rest ih =>
    obtain ⟨h1, h2, h3⟩ := h d (List.mem_cons_self d rest)
    obtain ⟨fn, hfn⟩ := Option.isSome_iff_exists.mp h1
    obtain ⟨lb, hlb⟩ := Option.isSome_iff_exists.mp h2
    obtain ⟨ts, hts⟩ := Option.isSome_iff_exists.mp h3
    have hrest := ih fun x hx => h x (List.mem_cons_of_mem d hx)
    simp [renderHist, hfn, hlb, hts, hrest]

/-! ### Storage-shape lemmas -/

theorem analyzeBranch_storage (modelFn : Tensor → List ℚ) (inp : Inputs)
    (lm : Option LoadedModel) (s3A dbA : Bool) (f : UploadedFile)
    (st0 : CloudState) :
    (analyzeBranch modelFn inp lm s3A dbA f st0).state.storage = st0.storage ∨
    (analyzeBranch modelFn inp lm s3A dbA f st0).state.storage =
      storagePut st0.storage (bucketName, s3Key f.name) f.content := by
  cases lm with
  | none => left; simp [analyzeBranch]
  | some m =>
    cases hinf : inp.inferOk with
    | false => left; simp [analyzeBranch, hinf]
    | true =>
      cases hsd : (s3A && dbA) with
      | false => left; simp [analyzeBranch, hinf, hsd]
      | true =>
        cases hup : inp.uploadOk with
        | false => left; simp [analyzeBranch, persistSection, hinf, hsd, hup]
        | true =>
          cases hdb : inp.dbSetOk with
          | false => right; simp [analyzeBranch, persistSection, hinf, hsd, hup, hdb]
          | true => right; simp [analyzeBranch, persistSection, hinf, hsd, hup, hdb]

theorem runScript_storage_shape (modelFn : Tensor → List ℚ) (inp : Inputs)
    (st0 : CloudState) :
    (runScript modelFn inp st0).state.storage = st0.storage ∨
    ∃ f, inp.uploadedFile = some f ∧
      (runScript modelFn inp st0).state.storage =
        storagePut st0.storage (bucketName, s3Key f.name) f.content := by
  rcases hfile : inp.uploadedFile with _ | f
  · left; simp [runScript, hfile]
  · cases hio : inp.imageOpenOk with
    | false => left; simp [runScript, hfile, hio]
    | true =>
      cases hcl : inp.analyzeClicked with
      | false => left; simp [runScript, hfile, hio, hcl]
      | true =>
        have h := analyzeBranch_storage modelFn inp
          (loadModel inp (s3Setup inp).1 st0.storage).1 (s3Setup inp).1
          (firebaseSetup inp).1 f st0
        rcases h with h | h
        · left; simp [runScript, hfile, hio, hcl, h]
        · right; exact ⟨f, rfl, by simp [runScript, hfile, hio, hcl, h]⟩

/-- No run of the script ever changes the stored model-weights object
`s3://carelens/model11.pth` (the only key written is `user_uploads/...`). -/
theorem runScript_preserves_weights (modelFn : Tensor → List ℚ) (inp : Inputs)
    (st0 : CloudState) :
    storageGet (runScript modelFn inp st0).state.storage (bucketName, "model11.pth") =
      storageGet st0.storage (bucketName, "model11.pth") := by
  rcases runScript_storage_shape modelFn inp st0 with h | ⟨f, _, h⟩
  · rw [h]
  · rw [h]
    exact storageGet_put_other _ _ _ _
      fun hk => s3Key_ne_weightsKey f.name (congrArg Prod.snd hk)

/-- Run where everything succeeds except the Firestore write: the uploaded
object stays, the collection is untouched, the error is shown. -/
theorem runScript_dbfail (modelFn : Tensor → List ℚ) (inp : Inputs)
    (st0 : CloudState) (f : UploadedFile) (w : List Nat)
    (hfb : inp.firebaseOk = true) (hs3 : inp.s3Ok = true)
    (hw : storageGet st0.storage (bucketName, "model11.pth") = some w)
    (hml : inp.modelLoadOk = true) (hf : inp.uploadedFile = some f)
    (hio : inp.imageOpenOk = true) (hcl : inp.analyzeClicked = true)
    (hinf : inp.inferOk = true) (hup : inp.uploadOk = true)
    (hdb : inp.dbSetOk = false) :
    runScript modelFn inp st0 =
      { err := none,
        trace :=
          [.sideSuccess "Firebase Connected", .sideSuccess "Connected to S3 bucket",
           .showPreview, .resize 224 224, .toTensor, .normalize normMean normStd,
           .unsqueeze 0, .forward (imgTensor f.content),
           .resultShown (analyzeLabel modelFn f.content) inp.now,
           .s3Upload bucketName (s3Key f.name) f.content,
           .uiSuccess "Image securely saved to S3.",
           .uiError "Upload or database save failed"] ++
          historySection inp true st0.db,
        state :=
          { storage := storagePut st0.storage (bucketName, s3Key f.name) f.content,
            db := st0.db } } := by
  simp [runScript, firebaseSetup, s3Setup, loadModel, analyzeBranch, persistSection,
        appTransforms, transformSteps, applyStep, stepEvent, imgTensor, analyzeLabel,
        hfb, hs3, hw, hml, hf, hio, hcl, hinf, hup, hdb]

theorem pipelineEvents_firebaseSetup (inp : Inputs) :
    pipelineEvents (firebaseSetup inp).2 = [] := by
  unfold firebaseSetup
  split <;> rfl

theorem pipelineEvents_s3Setup (inp : Inputs) :
    pipelineEvents (s3Setup inp).2 = [] := by
  unfold s3Setup
  split <;> rfl

theorem pipelineEvents_loadModel (inp : Inputs) (b : Bool) (s : Storage) :
    pipelineEvents (loadModel inp b s).2 = [] := by
  unfold loadModel
  split
  · split
    · rfl
    · split <;> rfl
  · rfl

theorem shownLabels_firebaseSetup (inp : Inputs) :
    shownLabels (firebaseSetup inp).2 = [] := by
  unfold firebaseSetup
  split <;> rfl

theorem shownLabels_s3Setup (inp : Inputs) :
    shownLabels (s3Setup inp).2 = [] := by
  unfold s3Setup
  split <;> rfl

theorem shownLabels_loadModel (inp : Inputs) (b : Bool) (s : Storage) :
    shownLabels (loadModel inp b s).2 = [] := by
  unfold loadModel
  split
  · split
    · rfl
    · split <;> rfl
  · rfl

/-- The preprocessing / inference events of an analyze run with a loaded
model: exactly the five steps, in order. -/
theorem pipelineEvents_analyzeBranch (modelFn : Tensor → List ℚ) (inp : Inputs)
    (m : LoadedModel) (s3A dbA : Bool) (f : UploadedFile) (st0 : CloudState)
    (hinf : inp.inferOk = true) :
    pipelineEvents (analyzeBranch modelFn inp (some m) s3A dbA f st0).trace =
      [Event.resize 224 224, Event.toTensor, Event.normalize normMean normStd,
       Event.unsqueeze 0, Event.forward (imgTensor f.content)] := by
  cases hsd : (s3A && dbA) with
  | false =>
    simp [analyzeBranch, hinf, hsd, appTransforms, transformSteps, applyStep,
          stepEvent, pipelineEvents_append, pipelineEvents_cons, pipelineEvents_nil,
          pipelineEvents_historySection, isPipelineEvent, imgTensor]
  | true =>
    cases hup : inp.uploadOk with
    | false =>
      simp [analyzeBranch, persistSection, hinf, hsd, hup, appTransforms,
            transformSteps, applyStep, stepEvent, pipelineEvents_append,
            pipelineEvents_cons, pipelineEvents_nil, pipelineEvents_historySection,
            isPipelineEvent, imgTensor]
    | true =>
      cases hdb : inp.dbSetOk with
      | false =>
        simp [analyzeBranch, persistSection, hinf, hsd, hup, hdb, appTransforms,
              transformSteps, applyStep, stepEvent, pipelineEvents_append,
              pipelineEvents_cons, pipelineEvents_nil, pipelineEvents_historySection,
              isPipelineEvent, imgTensor]
      | true =>
        simp [analyzeBranch, persistSection, hinf, hsd, hup, hdb, appTransforms,
              transformSteps, applyStep, stepEvent, pipelineEvents_append,
              pipelineEvents_cons, pipelineEvents_nil, pipelineEvents_historySection,
              isPipelineEvent, imgTensor]

/-- The label shown by an analyze run with a loaded model. -/
theorem shownLabels_analyzeBranch (modelFn : Tensor → List ℚ) (inp : Inputs)
    (m : LoadedModel) (s3A dbA : Bool) (f : UploadedFile) (st0 : CloudState)
    (hinf : inp.inferOk = true) :
    shownLabels (analyzeBranch modelFn inp (some m) s3A dbA f st0).trace =
      [analyzeLabel modelFn f.content] := by
  cases hsd : (s3A && dbA) with
  | false =>
    simp [analyzeBranch, hinf, hsd, appTransforms, transformSteps, applyStep,
          stepEvent, shownLabels_append, shownLabels_cons, shownLabels_nil,
          shownLabels_historySection, analyzeLabel, imgTensor]
  | true =>
    cases hup : inp.uploadOk with
    | false =>
      simp [analyzeBranch, persistSection, hinf, hsd, hup, appTransforms,
            transformSteps, applyStep, stepEvent, shownLabels_append,
            shownLabels_cons, shownLabels_nil, shownLabels_historySection,
            analyzeLabel, imgTensor]
    | true =>
      cases hdb : inp.dbSetOk with
      | false =>
        simp [analyzeBranch, persistSection, hinf, hsd, hup, hdb, appTransforms,
              transformSteps, applyStep, stepEvent, shownLabels_append,
              shownLabels_cons, shownLabels_nil, shownLabels_historySection,
              analyzeLabel, imgTensor]
      | true =>
        simp [analyzeBranch, persistSection, hinf, hsd, hup, hdb, appTransforms,
              transformSteps, applyStep, stepEvent, shownLabels_append,
              shownLabels_cons, shownLabels_nil, shownLabels_historySection,
              analyzeLabel, imgTensor]

/-- The analyze branch never raises once the forward pass succeeds. -/
theorem analyzeBranch_err_none (modelFn : Tensor → List ℚ) (inp : Inputs)
    (lm : Option LoadedModel) (s3A dbA : Bool) (f : UploadedFile)
    (st0 : CloudState) (hinf : inp.inferOk = true) :
    (analyzeBranch modelFn inp lm s3A dbA f st0).err = none := by
  cases lm with
  | none => simp [analyzeBranch]
  | some m =>
    cases hsd : (s3A && dbA) with
    | false => simp [analyzeBranch, hinf, hsd]
    | true => simp [analyzeBranch, hinf, hsd]

/-- The model loaded in a run with S3 available, the weights object present
and a succeeding `torch.load`. -/
theorem loadModel_in_run (inp : Inputs) (st0 : CloudState) (w : List Nat)
    (hs3 : inp.s3Ok = true)
    (hw : storageGet st0.storage (bucketName, "model11.pth") = some w)
    (hml : inp.modelLoadOk = true) :
    (loadModel inp (s3Setup inp).1 st0.storage).1 =
      some { base := "resnet18", fcIn := 512, fcOut := 2, weights := w } := by
  simp [loadModel, s3Setup, hs3, hw, hml]

/-- The label shown by a full analyzing run. -/
theorem shownLabels_run (modelFn : Tensor → List ℚ) (inp : Inputs)
    (st0 : CloudState) (f : UploadedFile) (w : List Nat)
    (hs3 : inp.s3Ok = true)
    (hw : storageGet st0.storage (bucketName, "model11.pth") = some w)
    (hml : inp.modelLoadOk = true) (hf : inp.uploadedFile = some f)
    (hio : inp.imageOpenOk = true) (hcl : inp.analyzeClicked = true)
    (hinf : inp.inferOk = true) :
    shownLabels (runScript modelFn inp st0).trace =
      [analyzeLabel modelFn f.content] := by
  have hlm := loadModel_in_run inp st0 w hs3 hw hml
  have hbr := shownLabels_analyzeBranch modelFn inp
    { base := "resnet18", fcIn := 512, fcOut := 2, weights := w }
    (s3Setup inp).1 (firebaseSetup inp).1 f st0 hinf
  simp [runScript, hf, hio, hcl, hlm, shownLabels_append, shownLabels_cons,
        shownLabels_nil, shownLabels_firebaseSetup, shownLabels_s3Setup,
        shownLabels_loadModel, hbr]

/-! ### Claim theorems -/

/-- C1: in a completed analysis action with both the storage client and the
database client available, exactly one prediction record is persisted: the
trace contains exactly one Firestore write, whose document consists of exactly
the four fields file name, predicted label, analysis timestamp and
stored-image URL, and the collection is extended by exactly that record. -/
theorem c1_exactly_one_record (modelFn : Tensor → List ℚ) (inp : Inputs)
    (st0 : CloudState) (f : UploadedFile) (w : List Nat)
    (hfb : inp.firebaseOk = true) (hs3 : inp.s3Ok = true)
    (hw : storageGet st0.storage (bucketName, "model11.pth") = some w)
    (hml : inp.modelLoadOk = true) (hf : inp.uploadedFile = some f)
    (hio : inp.imageOpenOk = true) (hcl : inp.analyzeClicked = true)
    (hinf : inp.inferOk = true) (hup : inp.uploadOk = true)
    (hdb : inp.dbSetOk = true) :
    dbSetDocs (runScript modelFn inp st0).trace =
      [mkRecord f.name (analyzeLabel modelFn f.content) (formatTs inp.now)
        (imageUrl f.name)] ∧
    (mkRecord f.name (analyzeLabel modelFn f.content) (formatTs inp.now)
        (imageUrl f.name)).map Prod.fst =
      ["file_name", "label", "timestamp", "image_url"] ∧
    (runScript modelFn inp st0).state.db =
      st0.db ++ [mkRecord f.name (analyzeLabel modelFn f.content)
        (formatTs inp.now) (imageUrl f.name)] := by
  rw [runScript_success modelFn inp st0 f w hfb hs3 hw hml hf hio hcl hinf hup hdb]
  refine ⟨?_, rfl, rfl⟩
  simp [dbSetDocs_append, dbSetDocs_cons, dbSetDocs_nil, dbSetDocs_historySection]

/-- Witness for C1 at concrete inputs. -/
theorem c1_exactly_one_record_witness :
    dbSetDocs (runScript sampleModelFn sampleInputs sampleState).trace =
      [mkRecord sampleFile.name (analyzeLabel sampleModelFn sampleFile.content)
        (formatTs sampleInputs.now) (imageUrl sampleFile.name)] ∧
    (mkRecord sampleFile.name (analyzeLabel sampleModelFn sampleFile.content)
        (formatTs sampleInputs.now) (imageUrl sampleFile.name)).map Prod.fst =
      ["file_name", "label", "timestamp", "image_url"] ∧
    (runScript sampleModelFn sampleInputs sampleState).state.db =
      sampleState.db ++ [mkRecord sampleFile.name
        (analyzeLabel sampleModelFn sampleFile.content)
        (formatTs sampleInputs.now) (imageUrl sampleFile.name)] :=
  c1_exactly_one_record sampleModelFn sampleInputs sampleState sampleFile [9, 9]
    rfl rfl rfl rfl rfl rfl rfl rfl rfl rfl

/-- C2: the label is computed as Normal exactly when the argmax index is 0
and Pneumonia otherwise, and any record the script ever writes carries one of
these two labels. -/
theorem c2_label_binary (p : Nat) (modelFn : Tensor → List ℚ) (inp : Inputs)
    (st0 : CloudState) (doc : Doc) :
    (labelOf p = "Normal" ↔ p = 0) ∧
    (labelOf p = "Pneumonia" ↔ p ≠ 0) ∧
    (doc ∈ dbSetDocs (runScript modelFn inp st0).trace →
      getField doc "label" = some "Normal" ∨
      getField doc "label" = some "Pneumonia") := by
  refine ⟨?_, ?_, ?_⟩
  · unfold labelOf
    by_cases hp : p = 0 <;> simp [hp]
  · unfold labelOf
    by_cases hp : p = 0 <;> simp [hp]
  · intro hmem
    rcases runScript_shape modelFn inp st0 with ⟨h1, _⟩ | ⟨f, pred, _, h1, _⟩
    · rw [h1] at hmem
      cases hmem
    · rw [h1] at hmem
      have hdoc : doc = mkRecord f.name (labelOf pred) (formatTs inp.now)
          (imageUrl f.name) := by simpa using hmem
      subst hdoc
      have hl : getField (mkRecord f.name (labelOf pred) (formatTs inp.now)
          (imageUrl f.name)) "label" = some (labelOf pred) := rfl
      rw [hl]
      unfold labelOf
      by_cases hp : pred = 0
      · left; rw [if_pos hp]
      · right; rw [if_neg hp]

/-- Witness for C2 at concrete inputs. -/
theorem c2_label_binary_witness :
    getField (mkRecord sampleFile.name
      (analyzeLabel sampleModelFn sampleFile.content)
      (formatTs sampleInputs.now) (imageUrl sampleFile.name)) "label" =
        some "Normal" ∨
    getField (mkRecord sampleFile.name
      (analyzeLabel sampleModelFn sampleFile.content)
      (formatTs sampleInputs.now) (imageUrl sampleFile.name)) "label" =
        some "Pneumonia" :=
  (c2_label_binary 0 sampleModelFn sampleInputs sampleState
    (mkRecord sampleFile.name (analyzeLabel sampleModelFn sampleFile.content)
      (formatTs sampleInputs.now) (imageUrl sampleFile.name))).2.2 (by decide)

/-- C3 counterexample: with every service connected but an upload whose bytes
PIL cannot decode, the script terminates with an uncaught exception instead of
rendering a UI error (`Image.open(...).convert("RGB")` at app.py line 107 is
outside every try/except), refuting the claim that every operation is wrapped
in a catch-and-display pattern. -/
theorem c3_counterexample :
    (runScript sampleModelFn { sampleInputs with imageOpenOk := false }
      sampleState).err = some PyErr.imageOpenFailed := rfl

/-- C3 (amended): every operation except image opening and model inference is
wrapped in a broad catch-and-display pattern: as long as image decoding and
the forward pass do not raise, no exception escapes the script, whatever else
fails. -/
theorem c3_amended_catch_all (modelFn : Tensor → List ℚ) (inp : Inputs)
    (st0 : CloudState) (hio : inp.imageOpenOk = true)
    (hinf : inp.inferOk = true) :
    (runScript modelFn inp st0).err = none := by
  rcases hfile : inp.uploadedFile with _ | f
  · simp [runScript, hfile]
  · cases hcl : inp.analyzeClicked with
    | false => simp [runScript, hfile, hio, hcl]
    | true =>
      have h := analyzeBranch_err_none modelFn inp
        (loadModel inp (s3Setup inp).1 st0.storage).1 (s3Setup inp).1
        (firebaseSetup inp).1 f st0 hinf
      simp [runScript, hfile, hio, hcl, h]

/-- Witness for the amended C3 at concrete inputs. -/
theorem c3_amended_catch_all_witness :
    (runScript sampleModelFn
      { sampleInputs with firebaseOk := false, s3Ok := false, uploadOk := false, dbSetOk := false, historyOk := false }
      sampleState).err = none :=
  c3_amended_catch_all sampleModelFn
    { sampleInputs with firebaseOk := false, s3Ok := false, uploadOk := false, dbSetOk := false, historyOk := false }
    sampleState rfl rfl

/-- C4: before producing a label, an analysis performs exactly the five
steps resize to 224x224, tensor conversion, normalization with the fixed mean
and standard-deviation constants, batch-dimension insertion, and a single
forward pass, in this order. -/
theorem c4_pipeline (modelFn : Tensor → List ℚ) (inp : Inputs)
    (st0 : CloudState) (f : UploadedFile) (w : List Nat)
    (hs3 : inp.s3Ok = true)
    (hw : storageGet st0.storage (bucketName, "model11.pth") = some w)
    (hml : inp.modelLoadOk = true) (hf : inp.uploadedFile = some f)
    (hio : inp.imageOpenOk = true) (hcl : inp.analyzeClicked = true)
    (hinf : inp.inferOk = true) :
    pipelineEvents (runScript modelFn inp st0).trace =
      [Event.resize 224 224, Event.toTensor, Event.normalize normMean normStd,
       Event.unsqueeze 0, Event.forward (imgTensor f.content)] ∧
    imgTensor f.content =
      Tensor.unsqueezed (Tensor.normalized (Tensor.tensorOf
        (Tensor.resized (Tensor.img f.content) 224 224)) normMean normStd) 0 := by
  refine ⟨?_, rfl⟩
  have hlm := loadModel_in_run inp st0 w hs3 hw hml
  have hbr := pipelineEvents_analyzeBranch modelFn inp
    { base := "resnet18", fcIn := 512, fcOut := 2, weights := w }
    (s3Setup inp).1 (firebaseSetup inp).1 f st0 hinf
  simp [runScript, hf, hio, hcl, hlm, pipelineEvents_append, pipelineEvents_cons,
        pipelineEvents_nil, pipelineEvents_firebaseSetup, pipelineEvents_s3Setup,
        pipelineEvents_loadModel, isPipelineEvent, hbr]

/-- Witness for C4 at concrete inputs. -/
theorem c4_pipeline_witness :
    pipelineEvents (runScript sampleModelFn sampleInputs sampleState).trace =
      [Event.resize 224 224, Event.toTensor, Event.normalize normMean normStd,
       Event.unsqueeze 0, Event.forward (imgTensor sampleFile.content)] ∧
    imgTensor sampleFile.content =
      Tensor.unsqueezed (Tensor.normalized (Tensor.tensorOf
        (Tensor.resized (Tensor.img sampleFile.content) 224 224))
        normMean normStd) 0 :=
  c4_pipeline sampleModelFn sampleInputs sampleState sampleFile [9, 9]
    rfl rfl rfl rfl rfl rfl rfl

/-- C5: prediction records are append-only: every run leaves the
`predictions` collection unchanged or extends it by exactly one record; the
initial collection is always a prefix of the final one, so no existing record
is ever mutated or deleted. -/
theorem c5_append_only (modelFn : Tensor → List ℚ) (inp : Inputs)
    (st0 : CloudState) :
    ((runScript modelFn inp st0).state.db = st0.db ∨
      ∃ d, (runScript modelFn inp st0).state.db = st0.db ++ [d]) ∧
    List.IsPrefix st0.db (runScript modelFn inp st0).state.db := by
  rcases runScript_shape modelFn inp st0 with ⟨_, h⟩ | ⟨f, pred, _, _, h⟩
  · exact ⟨Or.inl h, h ▸ List.prefix_refl _⟩
  · exact ⟨Or.inr ⟨_, h⟩, h ▸ ⟨_, rfl⟩⟩

/-- C6: for a fixed model function (fixed weights artifact) and a fixed
uploaded file, any two analyzing runs show the same single label, namely the
one determined by the argmax of the forward pass on the preprocessed image —
whatever else (states, times, persistence flags) differs between the runs. -/
theorem c6_deterministic_label (modelFn : Tensor → List ℚ)
    (inp1 inp2 : Inputs) (st1 st2 : CloudState) (f : UploadedFile)
    (w1 w2 : List Nat)
    (hs3a : inp1.s3Ok = true)
    (hwa : storageGet st1.storage (bucketName, "model11.pth") = some w1)
    (hmla : inp1.modelLoadOk = true) (hfa : inp1.uploadedFile = some f)
    (hioa : inp1.imageOpenOk = true) (hcla : inp1.analyzeClicked = true)
    (hinfa : inp1.inferOk = true)
    (hs3b : inp2.s3Ok = true)
    (hwb : storageGet st2.storage (bucketName, "model11.pth") = some w2)
    (hmlb : inp2.modelLoadOk = true) (hfb2 : inp2.uploadedFile = some f)
    (hiob : inp2.imageOpenOk = true) (hclb : inp2.analyzeClicked = true)
    (hinfb : inp2.inferOk = true) :
    shownLabels (runScript modelFn inp1 st1).trace =
      [analyzeLabel modelFn f.content] ∧
    shownLabels (runScript modelFn inp2 st2).trace =
      [analyzeLabel modelFn f.content] ∧
    shownLabels (runScript modelFn inp1 st1).trace =
      shownLabels (runScript modelFn inp2 st2).trace := by
  have ha := shownLabels_run modelFn inp1 st1 f w1 hs3a hwa hmla hfa hioa hcla hinfa
  have hb := shownLabels_run modelFn inp2 st2 f w2 hs3b hwb hmlb hfb2 hiob hclb hinfb
  exact ⟨ha, hb, by rw [ha, hb]⟩

/-- Witness for C6 at concrete inputs (second run with a different time and
no history). -/
theorem c6_deterministic_label_witness :
    shownLabels (runScript sampleModelFn sampleInputs sampleState).trace =
      [analyzeLabel sampleModelFn sampleFile.content] ∧
    shownLabels (runScript sampleModelFn
      { sampleInputs with historyOk := false, now := ⟨2026, 6, 7, 8, 9, 10⟩ }
      sampleState).trace = [analyzeLabel sampleModelFn sampleFile.content] ∧
    shownLabels (runScript sampleModelFn sampleInputs sampleState).trace =
      shownLabels (runScript sampleModelFn
        { sampleInputs with historyOk := false, now := ⟨2026, 6, 7, 8, 9, 10⟩ }
        sampleState).trace :=
  c6_deterministic_label sampleModelFn sampleInputs
    { sampleInputs with historyOk := false, now := ⟨2026, 6, 7, 8, 9, 10⟩ }
    sampleState sampleState sampleFile [9, 9] [9, 9]
    rfl rfl rfl rfl rfl rfl rfl rfl rfl rfl rfl rfl rfl rfl

/-- C7: the classifier is an off-the-shelf ResNet18 whose final layer is
replaced by a two-output linear layer; its weights are exactly the unchanged
bytes of the single object `s3://carelens/model11.pth`, and no run of the
script ever writes that object (the program never trains or modifies the
weights). -/
theorem c7_model_architecture (inp : Inputs) (storage : Storage) (w : List Nat)
    (hw : storageGet storage (bucketName, "model11.pth") = some w)
    (hml : inp.modelLoadOk = true) :
    (loadModel inp true storage).1 =
      some { base := "resnet18", fcIn := 512, fcOut := 2, weights := w } ∧
    (∀ modelFn inp2 st2,
      storageGet (runScript modelFn inp2 st2).state.storage
        (bucketName, "model11.pth") =
      storageGet st2.storage (bucketName, "model11.pth")) := by
  constructor
  · simp [loadModel, hw, hml]
  · exact fun modelFn inp2 st2 => runScript_preserves_weights modelFn inp2 st2

/-- Witness for C7 at concrete inputs. -/
theorem c7_model_architecture_witness :
    (loadModel sampleInputs true sampleState.storage).1 =
      some { base := "resnet18", fcIn := 512, fcOut := 2, weights := [9, 9] } ∧
    (∀ modelFn inp2 st2,
      storageGet (runScript modelFn inp2 st2).state.storage
        (bucketName, "model11.pth") =
      storageGet st2.storage (bucketName, "model11.pth")) :=
  c7_model_architecture sampleInputs sampleState.storage [9, 9] rfl rfl

/-- C8: the S3 key and stored-image URL are fixed functions of the file name
alone; for two completed analyses of same-named files, key and URL coincide,
the second upload overwrites the stored object with the second file's bytes,
and both persisted records carry that single URL. -/
theorem c8_same_name_overwrites (modelFn : Tensor → List ℚ)
    (inp1 inp2 : Inputs) (st0 : CloudState) (f1 f2 : UploadedFile)
    (w : List Nat) (hname : f1.name = f2.name)
    (hfb1 : inp1.firebaseOk = true) (hs31 : inp1.s3Ok = true)
    (hw : storageGet st0.storage (bucketName, "model11.pth") = some w)
    (hml1 : inp1.modelLoadOk = true) (hf1 : inp1.uploadedFile = some f1)
    (hio1 : inp1.imageOpenOk = true) (hcl1 : inp1.analyzeClicked = true)
    (hinf1 : inp1.inferOk = true) (hup1 : inp1.uploadOk = true)
    (hdb1 : inp1.dbSetOk = true)
    (hfb2 : inp2.firebaseOk = true) (hs32 : inp2.s3Ok = true)
    (hml2 : inp2.modelLoadOk = true) (hf2 : inp2.uploadedFile = some f2)
    (hio2 : inp2.imageOpenOk = true) (hcl2 : inp2.analyzeClicked = true)
    (hinf2 : inp2.inferOk = true) (hup2 : inp2.uploadOk = true)
    (hdb2 : inp2.dbSetOk = true) :
    s3Key f1.name = s3Key f2.name ∧
    imageUrl f1.name = imageUrl f2.name ∧
    storageGet (runScript modelFn inp2
        (runScript modelFn inp1 st0).state).state.storage
        (bucketName, s3Key f2.name) = some f2.content ∧
    (runScript modelFn inp2 (runScript modelFn inp1 st0).state).state.db =
      st0.db ++
        [mkRecord f1.name (analyzeLabel modelFn f1.content) (formatTs inp1.now)
          (imageUrl f1.name),
         mkRecord f2.name (analyzeLabel modelFn f2.content) (formatTs inp2.now)
          (imageUrl f2.name)] ∧
    getField (mkRecord f1.name (analyzeLabel modelFn f1.content)
        (formatTs inp1.now) (imageUrl f1.name)) "image_url" =
      getField (mkRecord f2.name (analyzeLabel modelFn f2.content)
        (formatTs inp2.now) (imageUrl f2.name)) "image_url" := by
  have h1 := runScript_success modelFn inp1 st0 f1 w
    hfb1 hs31 hw hml1 hf1 hio1 hcl1 hinf1 hup1 hdb1
  have hw2 : storageGet (runScript modelFn inp1 st0).state.storage
      (bucketName, "model11.pth") = some w := by
    rw [runScript_preserves_weights]
    exact hw
  have h2 := runScript_success modelFn inp2 (runScript modelFn inp1 st0).state
    f2 w hfb2 hs32 hw2 hml2 hf2 hio2 hcl2 hinf2 hup2 hdb2
  refine ⟨by rw [hname], by rw [hname], ?_, ?_, ?_⟩
  · rw [h2]
    exact storageGet_put_same _ _ _
  · rw [h2, h1]
    simp
  · have ha : getField (mkRecord f1.name (analyzeLabel modelFn f1.content)
        (formatTs inp1.now) (imageUrl f1.name)) "image_url" =
        some (imageUrl f1.name) := rfl
    have hb : getField (mkRecord f2.name (analyzeLabel modelFn f2.content)
        (formatTs inp2.now) (imageUrl f2.name)) "image_url" =
        some (imageUrl f2.name) := rfl
    rw [ha, hb, hname]

/-- Witness for C8 at concrete inputs (same name, different bytes). -/
theorem c8_same_name_overwrites_witness :
    s3Key sampleFile.name = s3Key sampleFile2.name ∧
    imageUrl sampleFile.name = imageUrl sampleFile2.name ∧
    storageGet (runScript sampleModelFn
        { sampleInputs with uploadedFile := some sampleFile2 }
        (runScript sampleModelFn sampleInputs sampleState).state).state.storage
        (bucketName, s3Key sampleFile2.name) = some sampleFile2.content ∧
    (runScript sampleModelFn
        { sampleInputs with uploadedFile := some sampleFile2 }
        (runScript sampleModelFn sampleInputs sampleState).state).state.db =
      sampleState.db ++
        [mkRecord sampleFile.name (analyzeLabel sampleModelFn sampleFile.content)
          (formatTs sampleInputs.now) (imageUrl sampleFile.name),
         mkRecord sampleFile2.name
          (analyzeLabel sampleModelFn sampleFile2.content)
          (formatTs ({ sampleInputs with uploadedFile := some sampleFile2 } : Inputs).now)
          (imageUrl sampleFile2.name)] ∧
    getField (mkRecord sampleFile.name
        (analyzeLabel sampleModelFn sampleFile.content)
        (formatTs sampleInputs.now) (imageUrl sampleFile.name)) "image_url" =
      getField (mkRecord sampleFile2.name
        (analyzeLabel sampleModelFn sampleFile2.content)
        (formatTs ({ sampleInputs with uploadedFile := some sampleFile2 } : Inputs).now)
        (imageUrl sampleFile2.name)) "image_url" :=
  c8_same_name_overwrites sampleModelFn sampleInputs
    { sampleInputs with uploadedFile := some sampleFile2 }
    sampleState sampleFile sampleFile2 [9, 9] rfl
    rfl rfl rfl rfl rfl rfl rfl rfl rfl rfl
    rfl rfl rfl rfl rfl rfl rfl rfl rfl

/-- C9: the recent-predictions view shows at most five records, ordered by
their stored timestamp string in descending order, and each row displays the
parsed stored timestamp or, when parsing in the fixed format fails, the
current time. -/
theorem c9_recent_view (inp : Inputs) (db : DB)
    (hok : inp.historyOk = true)
    (h : ∀ d ∈ db, (getField d "file_name").isSome = true ∧
      (getField d "label").isSome = true) :
    (queryDocs db).length ≤ 5 ∧
    List.Sorted docGe (queryDocs db) ∧
    (∀ d ∈ queryDocs db, d ∈ db) ∧
    historySection inp true db =
      (queryDocs db).map fun d =>
        Event.histShown ((getField d "file_name").getD "")
          ((getField d "label").getD "")
          ((parseTs ((getField d "timestamp").getD "")).getD inp.now)
          (getField d "image_url") := by
  refine ⟨queryDocs_length_le db, queryDocs_sorted db,
    fun d hd => queryDocs_mem db d hd, ?_⟩
  have hall : ∀ d ∈ queryDocs db, (getField d "file_name").isSome = true ∧
      (getField d "label").isSome = true ∧
      (getField d "timestamp").isSome = true := by
    intro d hd
    obtain ⟨h1, h2⟩ := h d (queryDocs_mem db d hd)
    exact ⟨h1, h2, queryDocs_ts_isSome db d hd⟩
  have hr := renderHist_eq_map inp.now (queryDocs db) hall
  simp [historySection, hok, hr]

/-- Witness for C9 at a concrete collection (one parseable and one
unparseable timestamp). -/
theorem c9_recent_view_witness :
    (queryDocs sampleDb).length ≤ 5 ∧
    List.Sorted docGe (queryDocs sampleDb) ∧
    (∀ d ∈ queryDocs sampleDb, d ∈ sampleDb) ∧
    historySection sampleInputs true sampleDb =
      (queryDocs sampleDb).map fun d =>
        Event.histShown ((getField d "file_name").getD "")
          ((getField d "label").getD "")
          ((parseTs ((getField d "timestamp").getD "")).getD sampleInputs.now)
          (getField d "image_url") :=
  c9_recent_view sampleInputs sampleDb rfl (by decide)

/-- C10: persistence is not atomic: in every run any Firestore write is
strictly preceded by the S3 upload, and when the Firestore write fails after
a successful upload the uploaded object remains in storage while no record is
written and the collection is unchanged (no rollback, no retry — only the
error message). -/
theorem c10_upload_then_write (modelFn : Tensor → List ℚ) (inp : Inputs)
    (st0 : CloudState) (f : UploadedFile) (w : List Nat)
    (hfb : inp.firebaseOk = true) (hs3 : inp.s3Ok = true)
    (hw : storageGet st0.storage (bucketName, "model11.pth") = some w)
    (hml : inp.modelLoadOk = true) (hf : inp.uploadedFile = some f)
    (hio : inp.imageOpenOk = true) (hcl : inp.analyzeClicked = true)
    (hinf : inp.inferOk = true) (hup : inp.uploadOk = true)
    (hdb : inp.dbSetOk = false) :
    (∀ mf2 inp2 st2, uploadBeforeSet (runScript mf2 inp2 st2).trace = true) ∧
    storageGet (runScript modelFn inp st0).state.storage
      (bucketName, s3Key f.name) = some f.content ∧
    (runScript modelFn inp st0).state.db = st0.db ∧
    dbSetDocs (runScript modelFn inp st0).trace = [] ∧
    Event.uiError "Upload or database save failed" ∈
      (runScript modelFn inp st0).trace := by
  refine ⟨fun mf2 inp2 st2 => uploadBeforeSet_runScript mf2 inp2 st2,
    ?_, ?_, ?_, ?_⟩
  all_goals
    rw [runScript_dbfail modelFn inp st0 f w hfb hs3 hw hml hf hio hcl hinf hup hdb]
  · exact storageGet_put_same _ _ _
  · simp [dbSetDocs_append, dbSetDocs_cons, dbSetDocs_nil, dbSetDocs_historySection]
  · simp

/-- Witness for C10 at concrete inputs (Firestore write failing). -/
theorem c10_upload_then_write_witness :
    (∀ mf2 inp2 st2, uploadBeforeSet (runScript mf2 inp2 st2).trace = true) ∧
    storageGet (runScript sampleModelFn { sampleInputs with dbSetOk := false }
      sampleState).state.storage (bucketName, s3Key sampleFile.name) =
      some sampleFile.content ∧
    (runScript sampleModelFn { sampleInputs with dbSetOk := false }
      sampleState).state.db = sampleState.db ∧
    dbSetDocs (runScript sampleModelFn { sampleInputs with dbSetOk := false }
      sampleState).trace = [] ∧
    Event.uiError "Upload or database save failed" ∈
      (runScript sampleModelFn { sampleInputs with dbSetOk := false }
        sampleState).trace :=
  c10_upload_then_write sampleModelFn { sampleInputs with dbSetOk := false }
    sampleState sampleFile [9, 9] rfl rfl rfl rfl rfl rfl rfl rfl rfl rfl

end CareLens
